import Mathlib

/-!
Verification development for the hypescanner-tg repository.

We shallowly embed the Python sources (`src/wallet_recap.py`,
`src/hyperliquid_api.py`, `src/state_manager.py`, `src/config.py`,
`src/main.py`, `src/recap_notifier.py`) as executable Lean definitions.
Python floats are modelled as rationals (ℚ); a numeric field whose
`float(...)` conversion may raise `ValueError` is modelled as `Option ℚ`
(`none` = the conversion raises); fallible computations return `Option`.
-/

namespace HypeTg

/-! ## Character-level helpers

Python's `str.lower` and the `"open" in s` substring test, modelled over
`List Char`.  `Char.toLower` performs the ASCII case fold that
`str.lower` applies to the ASCII direction labels used by this program. -/

/-- Case fold applied by `direction.lower()` (wallet_recap.py line 156), char-wise. -/
def lower_list (cs : List Char) : List Char := cs.map Char.toLower

/-- `leads_with n h` is true when `n` is an initial segment of `h`. -/
def leads_with : List Char → List Char → Bool
  | [], _ => true
  | _ :: _, [] => false
  | a :: as, b :: bs => a == b && leads_with as bs

/-- `has_sub n h` models Python's substring test `n in h`. -/
def has_sub (needle : List Char) : List Char → Bool
  | [] => leads_with needle []
  | c :: rest => leads_with needle (c :: rest) || has_sub needle rest

/-! ## Raw records

`RawFill` models one fill dictionary as consumed by `wallet_recap.py`:
each field holds the result of `fill.get(key, default)`, and for the
numeric fields the subsequent `float(...)` conversion (`none` = raises). -/

/-- Raw fill record (a dict from the fills endpoint), as read by `wallet_recap.py`
lines 95-107.  A missing key yields the default shown in the source
(`some 0`, `""`, `"UNKNOWN"`); `none` on a numeric field models a value whose
`float()` conversion raises `ValueError`. -/
structure RawFill where
  coin : String := "UNKNOWN"
  dir : String := ""
  px : Option ℚ := some 0
  sz : Option ℚ := some 0
  side : String := ""
  closedPnl : Option ℚ := some 0
  time : Int := 0
  startPosition : Option ℚ := some 0
  deriving DecidableEq

/-- Normalized position dictionary produced by `HyperliquidAPI.parse_positions`
(hyperliquid_api.py lines 160-173). -/
structure Position where
  wallet : String
  asset : String
  type : String
  size : ℚ
  position_value : ℚ
  entry_price : ℚ
  current_price : ℚ
  liquidation_price : Option ℚ
  unrealized_pnl : ℚ
  pnl_percentage : ℚ
  margin_used : ℚ
  funding_rate : ℚ
  deriving DecidableEq

/-- Formatted trade dictionary built by `WalletRecap._format_trades`
(wallet_recap.py lines 119-131).  The display string `time` (an
`strftime` rendering of `timestamp`) is presentation-only and carries no
information beyond `timestamp`, so it is not repeated here. -/
structure Trade where
  asset : String
  type : String
  direction : String
  side : String
  price : ℚ
  size : ℚ
  value : ℚ
  pnl : ℚ
  timestamp : Int
  raw_direction : String
  deriving DecidableEq

/-- Wallet summary dictionary returned by `WalletRecap.build_summary`
(wallet_recap.py lines 49-58). -/
structure Summary where
  wallet : String
  wallet_short : String
  overall_pnl : ℚ
  daily_pnl : ℚ
  trade_count : Nat
  trades : List Trade
  has_activity : Bool
  position_count : Nat
  deriving DecidableEq

/-! ## WalletRecap (src/wallet_recap.py) -/

/-- `HyperliquidAPI.resolve_asset_name` (hyperliquid_api.py lines 330-344):
identifiers not starting with `"@"` pass through; otherwise the cached
mapping is consulted, falling back to the original id.  The mapping
(network-fetched and cached) is abstracted as a lookup function. -/
def resolve_asset_name (mapping : String → Option String) (asset_id : String) : String :=
  if !(asset_id.startsWith "@") then asset_id
  else (mapping asset_id).getD asset_id

/-- `WalletRecap._determine_trade_type` (wallet_recap.py lines 144-171). -/
def determine_trade_type (direction : String) (start_position size : ℚ) : String :=
  let direction_lower := lower_list direction.toList
  if has_sub "open".toList direction_lower then "OPEN"
  else if has_sub "close".toList direction_lower then "CLOSE"
  else
    if start_position = 0 then "OPEN"
    else if |start_position + size| < |start_position| then "REDUCE"
    else if |start_position + size| > |start_position| then "INCREASE"
    else "CLOSE"

/-- `WalletRecap._format_address` (wallet_recap.py lines 173-178). -/
def format_address (address : String) : String :=
  if address.length > 10 then address.take 6 ++ "..." ++ address.takeRight 4
  else address

/-- `WalletRecap._calculate_overall_pnl` (wallet_recap.py lines 63-68):
left-fold accumulation of `unrealized_pnl` starting from `0.0`. -/
def calculate_overall_pnl (positions : List Position) : ℚ :=
  positions.foldl (fun total_pnl pos => total_pnl + pos.unrealized_pnl) 0

/-- `WalletRecap._calculate_daily_pnl` (wallet_recap.py lines 70-81):
left-fold accumulation of `float(fill.get("closedPnl", 0))`.  A fill whose
`closedPnl` fails the `float()` conversion raises out of the loop, which the
`Option` monad models as `none`. -/
def calculate_daily_pnl (fills : List RawFill) : Option ℚ :=
  fills.foldlM (fun daily_pnl fill => (fill.closedPnl).map (fun c => daily_pnl + c)) 0

/-- Body of the per-fill `try` block of `WalletRecap._format_trades`
(wallet_recap.py lines 93-133): `none` models a `ValueError` caught by the
`except` clause (the fill is skipped).  `api` abstracts the optional
`api_client` used only for asset-name resolution. -/
def format_trade (api : Option (String → Option String)) (fill : RawFill) : Option Trade := do
  let coin0 := fill.coin
  let coin :=
    match api with
    | some mapping => if coin0.startsWith "@" then resolve_asset_name mapping coin0 else coin0
    | none => coin0
  let direction := fill.dir
  let price ← fill.px
  let size ← fill.sz
  let closed_pnl ← fill.closedPnl
  let timestamp := fill.time
  let start_position ← fill.startPosition
  let trade_type := determine_trade_type direction start_position size
  let value := price * |size|
  pure { asset := coin, type := trade_type, direction := direction, side := fill.side,
         price := price, size := |size|, value := value, pnl := closed_pnl,
         timestamp := timestamp, raw_direction := direction }

/-- Descending-timestamp comparison used by the final
`formatted_trades.sort(key=lambda x: x["timestamp"], reverse=True)`
(wallet_recap.py line 140). -/
def ts_desc (a b : Trade) : Prop := b.timestamp ≤ a.timestamp

instance ts_desc_decidable : DecidableRel ts_desc :=
  fun a b => inferInstanceAs (Decidable (b.timestamp ≤ a.timestamp))

instance ts_desc_total : IsTotal Trade ts_desc :=
  ⟨fun a b => le_total b.timestamp a.timestamp⟩

instance ts_desc_trans : IsTrans Trade ts_desc :=
  ⟨fun _ _ _ h1 h2 => le_trans h2 h1⟩

/-- `WalletRecap._format_trades` (wallet_recap.py lines 83-142): format each
fill, skipping the ones that raise, then
`formatted_trades.sort(key=lambda x: x["timestamp"], reverse=True)`.
Python's `list.sort` is a stable sort; with `reverse=True` it places larger
keys first and keeps the original order of equal keys.  Any two stable sorts
under the same non-strict key order compute the same list, so the stable
`List.insertionSort ts_desc` is extensionally the same function. -/
def format_trades (api : Option (String → Option String)) (fills : List RawFill) : List Trade :=
  let formatted_trades := fills.filterMap (format_trade api)
  formatted_trades.insertionSort ts_desc

/-- `WalletRecap.build_summary` (wallet_recap.py lines 31-61).  `none` models
the uncaught `ValueError` that `_calculate_daily_pnl` raises on a fill whose
`closedPnl` does not convert to float. -/
def build_summary (wallet : String) (positions : List Position) (fills : List RawFill)
    (api : Option (String → Option String)) : Option Summary := do
  let overall_pnl := calculate_overall_pnl positions
  let daily_pnl ← calculate_daily_pnl fills
  let trade_count := fills.length
  let trades := format_trades api fills
  pure { wallet := wallet, wallet_short := format_address wallet,
         overall_pnl := overall_pnl, daily_pnl := daily_pnl,
         trade_count := trade_count, trades := trades,
         has_activity := trade_count > 0, position_count := positions.length }

/-! ## HyperliquidAPI.parse_positions (src/hyperliquid_api.py) -/

/-- The `position` sub-dictionary of one entry of `assetPositions`
(hyperliquid_api.py lines 136-149).  Each numeric field holds the result of
`position_data.get(key, 0)` followed by `float(...)`; `none` models a value
whose conversion raises (caught at lines 178-181, entry skipped).
`liquidationPx` is read without conversion (line 148). -/
structure RawPositionData where
  szi : Option ℚ := some 0
  coin : String := "UNKNOWN"
  entryPx : Option ℚ := some 0
  positionValue : Option ℚ := some 0
  unrealizedPnl : Option ℚ := some 0
  liquidationPx : Option ℚ := none
  marginUsed : Option ℚ := some 0
  deriving DecidableEq

/-- Body of the per-entry `try` block of `HyperliquidAPI.parse_positions`
(hyperliquid_api.py lines 135-181).  `none` covers both `continue` paths:
a zero `szi` (line 140) and a caught parse error (line 178). -/
def parse_position (wallet_address : String) (p : RawPositionData) : Option Position := do
  let szi ← p.szi
  if szi = 0 then none
  else
    let entry_px ← p.entryPx
    let position_value ← p.positionValue
    let unrealized_pnl ← p.unrealizedPnl
    let margin_used ← p.marginUsed
    let position_type := if szi > 0 then "LONG" else "SHORT"
    let current_price := if szi ≠ 0 then |position_value / szi| else entry_px
    let pnl_percentage := if position_value ≠ 0 then unrealized_pnl / |position_value| * 100 else 0
    pure { wallet := wallet_address, asset := p.coin, type := position_type,
           size := |szi|, position_value := |position_value|,
           entry_price := entry_px, current_price := current_price,
           liquidation_price := p.liquidationPx, unrealized_pnl := unrealized_pnl,
           pnl_percentage := pnl_percentage, margin_used := margin_used,
           funding_rate := 0 }

/-- `HyperliquidAPI.parse_positions` (hyperliquid_api.py lines 116-183).
`user_state = none` models a falsy response or one without an
`assetPositions` key (line 127); each surviving entry is normalized by
`parse_position`. -/
def parse_positions (user_state : Option (List RawPositionData)) (wallet_address : String) :
    List Position :=
  match user_state with
  | none => []
  | some asset_positions => asset_positions.filterMap (parse_position wallet_address)

/-! ## StateManager (src/state_manager.py) -/

/-- In-memory state dictionary of `StateManager`: the two keys it ever reads or
writes (state_manager.py lines 71, 85, 106-107); a missing key is `none`. -/
structure StateData where
  last_run_timestamp : Option Int := none
  last_scan_type : Option String := none
  deriving DecidableEq

/-- `StateManager.get_last_run_timestamp` (state_manager.py lines 64-76):
`self._state.get("last_run_timestamp")`. -/
def get_last_run_timestamp (st : StateData) : Option Int :=
  st.last_run_timestamp

/-- `StateManager.get_last_scan_type` (state_manager.py lines 78-90):
`self._state.get("last_scan_type")`. -/
def get_last_scan_type (st : StateData) : Option String :=
  st.last_scan_type

/-- `StateManager.update_state` (state_manager.py lines 92-111): a `None`
timestamp is replaced by the current wall-clock milliseconds (`now_ms`), then
both keys are overwritten in the state dictionary (and `_save_state` is
called, modelled separately by `save_state`). -/
def update_state (st : StateData) (scan_type : String) (timestamp_ms : Option Int)
    (now_ms : Int) : StateData :=
  let t := timestamp_ms.getD now_ms
  { st with last_run_timestamp := some t, last_scan_type := some scan_type }

/-- `StateManager._save_state` (state_manager.py lines 49-62): `json.dump` of
the state dictionary into the state file.  JSON serialization of a record of
one integer and one string is lossless, so the file content is modelled as the
record itself (`none` = file absent or unreadable). -/
def save_state (st : StateData) : Option StateData :=
  some st

/-- `StateManager._load_state` (state_manager.py lines 30-47), run by a freshly
constructed `StateManager` on the same path: a missing or unparsable file
yields the empty state `{}`; otherwise `json.load` restores the saved
record. -/
def load_state (file : Option StateData) : StateData :=
  file.getD {}

/-! ## Configuration (src/config.py) -/

/-- The configuration values consulted by `RecapGenerator.run` and
`config.validate_config` (config.py lines 9-60).  A `Option String` credential
models the `os.getenv` result (`none` = unset). -/
structure Config where
  telegram_bot_token : Option String := none
  telegram_chat_id : Option String := none
  wallet_addresses : List String := []
  filter_bots : Bool := true
  max_trades_per_day : Nat := 500
  min_trades_per_day : Nat := 1

/-- Python truthiness of an optional string: `None` and `""` are falsy. -/
def truthy_str : Option String → Bool
  | none => false
  | some s => s ≠ ""

/-- `config.validate_config` (config.py lines 75-87): `true` when no error is
collected, `false` models the raised `ValueError`. -/
def validate_config (c : Config) : Bool :=
  truthy_str c.telegram_bot_token && truthy_str c.telegram_chat_id &&
    !c.wallet_addresses.isEmpty

/-! ## RecapNotifier.send_startup_message and the orchestrator (src/main.py)

`RecapGenerator.run` (main.py lines 110-226) is embedded as a function from
its environment (configuration, optional state manager, an oracle giving the
result of `generate_wallet_recap` for each wallet, and the success/failure of
each outbound Telegram send) to an outcome carrying the observable effect
trace.  Network and Telegram I/O are abstracted as parameters; everything
else follows the source line by line. -/

/-- Observable effects of one run. -/
inductive Event where
  | startup_sent (scan_type : String)
  | recap_sent (wallet : String)
  | recap_send_failed (wallet : String)
  | wallet_failed (wallet : String)
  | bot_collected (wallet : String)
  | filtered_inactive (wallet : String)
  | bot_summary_sent (count : Nat)
  | bot_summary_failed (count : Nat)
  | completion_sent (successful total_trades : Nat)
  | checkpoint_saved (scan_type : String) (timestamp_ms : Int)
  deriving DecidableEq

/-- Outcome of `RecapGenerator.run`: `config_exit` and `state_manager_exit`
are the two `sys.exit(1)` calls (main.py lines 130, 137);
`uncaught_type_error` is an exception escaping `run` (caught only in `main`,
which exits non-zero); `completed` is a normal return.  Each carries the
events emitted before that point. -/
inductive RunOutcome where
  | config_exit
  | state_manager_exit
  | uncaught_type_error (events : List Event)
  | completed (events : List Event)
  deriving DecidableEq

/-- Number of parameters of `RecapNotifier.send_startup_message` besides
`self`: its definition is `def send_startup_message(self) -> bool`
(recap_notifier.py line 216). -/
def send_startup_message_param_count : Nat := 0

/-- Calling `send_startup_message` with a list of positional arguments, as
Python resolves it: if the argument count does not match the parameter list
the interpreter raises `TypeError` before the body runs (modelled as
`Except.error ()`); otherwise the body executes and returns the delivery
result (abstracted as `send_ok`). -/
def call_send_startup_message (args : List String) (send_ok : Bool) : Except Unit Bool :=
  if args.length = send_startup_message_param_count then .ok send_ok
  else .error ()

/-- Run statistics accumulated by the wallet loop (main.py lines 152-156). -/
structure RunStats where
  total_trades : Nat := 0
  successful_wallets : Nat := 0
  failed_wallets : Nat := 0
  filtered_wallets : Nat := 0
  bot_traders : List Summary := []
  deriving DecidableEq

/-- Body of the per-wallet loop of `RecapGenerator.run` (main.py lines
166-202), given the result of `generate_wallet_recap` for this wallet
(`none` = it returned `None`).  Returns the updated statistics and the
events this iteration emitted. -/
def loop_step (filter_bots : Bool) (max_trades_per_day min_trades_per_day : Nat)
    (send_recap_ok : Summary → Bool) (wallet : String) (st : RunStats)
    (summary : Option Summary) : RunStats × List Event :=
  match summary with
  | none => ({ st with failed_wallets := st.failed_wallets + 1 }, [.wallet_failed wallet])
  | some s =>
    let send_part : RunStats × List Event :=
      if send_recap_ok s then
        ({ st with successful_wallets := st.successful_wallets + 1,
                   total_trades := st.total_trades + s.trade_count },
         [.recap_sent wallet])
      else
        ({ st with failed_wallets := st.failed_wallets + 1 }, [.recap_send_failed wallet])
    if filter_bots then
      if s.trade_count > max_trades_per_day then
        ({ st with bot_traders := st.bot_traders ++ [s],
                   filtered_wallets := st.filtered_wallets + 1 },
         [.bot_collected wallet])
      else if s.trade_count < min_trades_per_day then
        ({ st with filtered_wallets := st.filtered_wallets + 1 },
         [.filtered_inactive wallet])
      else send_part
    else send_part

/-- `RecapGenerator.run` (main.py lines 110-226).  `recap_for` abstracts
`generate_wallet_recap` (its scan type, wallet, and optional incremental
start); `send_recap_ok`, `send_start_ok`, `send_bot_ok` abstract the Telegram
delivery results; `sm` is the optional state manager's loaded state; `now_ms`
is the wall-clock time when `update_state` would run.  Control flow:
validation (lines 126-130), incremental setup and its 24h fallback (lines
132-146), the startup call `self.notifier.send_startup_message(self.scan_type)`
passing one positional argument (line 149), the wallet loop (lines 166-202),
the bot summary (lines 204-211), the completion message (line 222), and the
final `state_manager.update_state(self.scan_type)` (lines 224-226). -/
def run (cfg : Config) (scan_type : String) (sm : Option StateData)
    (recap_for : String → String → Option Int → Option Summary)
    (send_recap_ok : Summary → Bool) (send_start_ok send_bot_ok send_complete_ok : Bool)
    (now_ms : Int) : RunOutcome :=
  if !(validate_config cfg) then .config_exit
  else
    let setup : Option (String × Option Int) :=
      if scan_type = "incremental" then
        match sm with
        | none => none
        | some st =>
          match get_last_run_timestamp st with
          | none => some ("24h", none)
          | some t => some ("incremental", some t)
      else some (scan_type, none)
    match setup with
    | none => .state_manager_exit
    | some (scan_type2, start_timestamp_ms) =>
      match call_send_startup_message [scan_type2] send_start_ok with
      | .error _ => .uncaught_type_error []
      | .ok _sent =>
        let events0 : List Event := [.startup_sent scan_type2]
        let step := fun (acc : RunStats × List Event) (wallet : String) =>
          let r := loop_step cfg.filter_bots cfg.max_trades_per_day cfg.min_trades_per_day
            send_recap_ok wallet acc.1 (recap_for scan_type2 wallet start_timestamp_ms)
          (r.1, acc.2 ++ r.2)
        let looped := cfg.wallet_addresses.foldl step (({} : RunStats), events0)
        let stats := looped.1
        let events1 := looped.2
        let events2 :=
          if stats.bot_traders.isEmpty then events1
          else
            events1 ++ [if send_bot_ok then Event.bot_summary_sent stats.bot_traders.length
                        else Event.bot_summary_failed stats.bot_traders.length]
        let _ := send_complete_ok
        let events3 := events2 ++ [.completion_sent stats.successful_wallets stats.total_trades]
        let events4 :=
          match sm with
          | some _ => events3 ++ [.checkpoint_saved scan_type2 now_ms]
          | none => events3
        .completed events4

/-- Events carried by a run outcome. -/
def events_of : RunOutcome → List Event
  | .config_exit => []
  | .state_manager_exit => []
  | .uncaught_type_error es => es
  | .completed es => es

/-- Recognizer for startup events. -/
def is_startup_event : Event → Bool
  | .startup_sent _ => true
  | _ => false

/-- Recognizer for completion events. -/
def is_completion_event : Event → Bool
  | .completion_sent _ _ => true
  | _ => false

/-- Recognizer for checkpoint-save events. -/
def is_checkpoint_event : Event → Bool
  | .checkpoint_saved _ _ => true
  | _ => false

/-! ## Sample inputs used by concrete witnesses and counterexamples -/

/-- A configuration that passes `validate_config` (both credentials set,
wallet list non-empty) with the default thresholds of config.py. -/
def cfg_valid : Config :=
  { telegram_bot_token := some "token", telegram_chat_id := some "chat",
    wallet_addresses := ["0xaaa", "0xbbb"] }

/-- A small sample wallet summary returned by the recap oracle. -/
def summary_small : Summary :=
  { wallet := "0xaaa", wallet_short := "0xaaa", overall_pnl := 0, daily_pnl := 0,
    trade_count := 3, trades := [], has_activity := true, position_count := 0 }

/-- A summary whose trade count (600) exceeds the default bot threshold
`MAX_TRADES_PER_DAY = 500` (config.py line 58). -/
def summary_bot : Summary :=
  { wallet := "0xbot", wallet_short := "0xbot", overall_pnl := 0, daily_pnl := 0,
    trade_count := 600, trades := [], has_activity := true, position_count := 0 }

/-- Two sample positions differing only in unrealized P&L. -/
def pos_a : Position :=
  { wallet := "w", asset := "AAA", type := "LONG", size := 1, position_value := 0,
    entry_price := 0, current_price := 0, liquidation_price := none,
    unrealized_pnl := 3, pnl_percentage := 0, margin_used := 0, funding_rate := 0 }

def pos_b : Position :=
  { wallet := "w", asset := "BBB", type := "SHORT", size := 2, position_value := 0,
    entry_price := 0, current_price := 0, liquidation_price := none,
    unrealized_pnl := -1, pnl_percentage := 0, margin_used := 0, funding_rate := 0 }

/-- Two well-formed sample fills with timestamps 1 and 3. -/
def fill_t1 : RawFill := { closedPnl := some 2, time := 1 }

def fill_t3 : RawFill := { closedPnl := some 5, time := 3 }

/-- A fill whose price field does not convert to float (`px = none`): it is
dropped from the formatted trade list but still counted in `trade_count`. -/
def fill_bad_px : RawFill := { px := none, closedPnl := some 4, time := 2 }

/-- The trade produced from `fill_t1` (type OPEN since `dir` is empty and
`startPosition` is 0). -/
def trade_t1 : Trade :=
  { asset := "UNKNOWN", type := "OPEN", direction := "", side := "", price := 0,
    size := 0, value := 0, pnl := 2, timestamp := 1, raw_direction := "" }

/-- The trade produced from `fill_t3`. -/
def trade_t3 : Trade :=
  { asset := "UNKNOWN", type := "OPEN", direction := "", side := "", price := 0,
    size := 0, value := 0, pnl := 5, timestamp := 3, raw_direction := "" }

/-- Summary built from `[pos_a, pos_b]` and `[fill_t1, fill_t3]`. -/
def summary_c2 : Summary :=
  { wallet := "w", wallet_short := "w", overall_pnl := 2, daily_pnl := 7,
    trade_count := 2, trades := [trade_t3, trade_t1], has_activity := true,
    position_count := 2 }

/-- Summary built from `[]` and `[fill_bad_px]`: one counted trade, but an
empty formatted trade list. -/
def summary_c10 : Summary :=
  { wallet := "w", wallet_short := "w", overall_pnl := 0, daily_pnl := 4,
    trade_count := 1, trades := [], has_activity := true, position_count := 0 }

/-- Three raw account-state entries of which the middle one has `szi = 0`. -/
def raw_entries_c8 : List RawPositionData :=
  [{ szi := some 1 }, { szi := some 0 }, { szi := some (-2) }]

/-- The normalized position produced from the first entry of `raw_entries_c8`. -/
def pos_c8 : Position :=
  { wallet := "w", asset := "UNKNOWN", type := "LONG", size := 1, position_value := 0,
    entry_price := 0, current_price := 0, liquidation_price := none,
    unrealized_pnl := 0, pnl_percentage := 0, margin_used := 0, funding_rate := 0 }

/-! ## Helper lemmas -/

/-- A left fold that adds `f x` at every step computes the sum of the mapped list. -/
theorem foldl_add_sum {α : Type} (f : α → ℚ) (l : List α) (a : ℚ) :
    l.foldl (fun t x => t + f x) a = a + (l.map f).sum := by
  induction l generalizing a with
  | nil => simp
  | cons x xs ih => simp [ih, add_assoc]

/-- `_calculate_overall_pnl` computes the sum of the positions' unrealized P&L. -/
theorem calculate_overall_pnl_eq_sum (positions : List Position) :
    calculate_overall_pnl positions = (positions.map Position.unrealized_pnl).sum := by
  simpa using foldl_add_sum Position.unrealized_pnl positions 0

/-- Accumulator-generalized form of the `_calculate_daily_pnl` fold. -/
theorem calculate_daily_pnl_aux (l : List RawFill) (a d : ℚ)
    (h : l.foldlM (fun daily_pnl fill => (fill.closedPnl).map (fun c => daily_pnl + c)) a
      = some d) :
    d = a + (l.filterMap RawFill.closedPnl).sum := by
  induction l generalizing a with
  | nil =>
    simp only [List.foldlM_nil, Option.pure_def, Option.some.injEq] at h
    simp [h]
  | cons f fs ih =>
    cases hc : f.closedPnl with
    | none => simp [List.foldlM_cons, hc] at h
    | some c =>
      simp only [List.foldlM_cons, hc, Option.map_some, Option.bind_some,
        Option.some_bind] at h
      have := ih (a + c) h
      simp [List.filterMap_cons, hc, this, add_assoc]

/-- When `_calculate_daily_pnl` returns, its value is the sum of the fills'
parsed `closedPnl` values. -/
theorem calculate_daily_pnl_eq_sum (fills : List RawFill) (d : ℚ)
    (h : calculate_daily_pnl fills = some d) :
    d = (fills.filterMap RawFill.closedPnl).sum := by
  have := calculate_daily_pnl_aux fills 0 d h
  simpa using this

/-- Field-level description of a successful `build_summary`. -/
theorem build_summary_fields (w : String) (api : Option (String → Option String))
    (positions : List Position) (fills : List RawFill) (s : Summary)
    (h : build_summary w positions fills api = some s) :
    s.overall_pnl = calculate_overall_pnl positions ∧
    calculate_daily_pnl fills = some s.daily_pnl ∧
    s.trade_count = fills.length ∧
    s.trades = format_trades api fills ∧
    s.has_activity = decide (fills.length > 0) ∧
    s.position_count = positions.length := by
  unfold build_summary at h
  cases hd : calculate_daily_pnl fills with
  | none => rw [hd] at h; simp at h
  | some d =>
    rw [hd] at h
    have h2 := Option.some.inj h
    subst h2
    simp [hd]

/-- The output of `_format_trades` is sorted under the descending-timestamp
relation. -/
theorem format_trades_sorted (api : Option (String → Option String)) (fills : List RawFill) :
    (format_trades api fills).Sorted ts_desc := by
  unfold format_trades
  exact List.sorted_insertionSort ts_desc _

/-- A position produced by `parse_position` records the absolute value of a
non-zero raw `szi` as its size. -/
theorem parse_position_size (wallet_address : String) (raw : RawPositionData) (p : Position)
    (h : parse_position wallet_address raw = some p) :
    ∃ szi, raw.szi = some szi ∧ szi ≠ 0 ∧ p.size = |szi| := by
  obtain ⟨szi?, coin, epx?, pv?, upnl?, liq?, mu?⟩ := raw
  cases szi? with
  | none => cases h
  | some szi =>
    by_cases h0 : szi = 0
    · simp [parse_position, h0] at h
    · cases epx? with
      | none => simp [parse_position, h0] at h
      | some epx =>
        cases pv? with
        | none => simp [parse_position, h0] at h
        | some pv =>
          cases upnl? with
          | none => simp [parse_position, h0] at h
          | some upnl =>
            cases mu? with
            | none => simp [parse_position, h0] at h
            | some mu =>
              simp [parse_position, h0] at h
              refine ⟨szi, rfl, h0, ?_⟩
              rw [← h]

/-! ## Claims -/

/-- C1: `_determine_trade_type` is deterministic (it is a function) and total:
for every direction text and rational start position and size it returns one
of OPEN, INCREASE, REDUCE, CLOSE; a direction containing "open"
(case-insensitively) yields OPEN; otherwise one containing "close" yields
CLOSE; only otherwise does delta inference apply: zero start position yields
OPEN, `|start+size| < |start|` yields REDUCE, `|start+size| > |start|` yields
INCREASE, and equal magnitudes yield CLOSE. -/
theorem c1_trade_type_deterministic_total (direction : String) (start_position size : ℚ) :
    (determine_trade_type direction start_position size = "OPEN" ∨
     determine_trade_type direction start_position size = "INCREASE" ∨
     determine_trade_type direction start_position size = "REDUCE" ∨
     determine_trade_type direction start_position size = "CLOSE") ∧
    (has_sub "open".toList (lower_list direction.toList) = true →
      determine_trade_type direction start_position size = "OPEN") ∧
    (has_sub "open".toList (lower_list direction.toList) = false →
     has_sub "close".toList (lower_list direction.toList) = true →
      determine_trade_type direction start_position size = "CLOSE") ∧
    (has_sub "open".toList (lower_list direction.toList) = false →
     has_sub "close".toList (lower_list direction.toList) = false →
      ((start_position = 0 →
          determine_trade_type direction start_position size = "OPEN") ∧
       (start_position ≠ 0 → |start_position + size| < |start_position| →
          determine_trade_type direction start_position size = "REDUCE") ∧
       (start_position ≠ 0 → |start_position + size| > |start_position| →
          determine_trade_type direction start_position size = "INCREASE") ∧
       (start_position ≠ 0 → |start_position + size| = |start_position| →
          determine_trade_type direction start_position size = "CLOSE"))) := by
  simp only [determine_trade_type]
  by_cases h1 : has_sub "open".toList (lower_list direction.toList) = true
  · rw [if_pos h1]
    refine ⟨Or.inl rfl, fun _ => rfl, ?_, ?_⟩
    · intro hf _; rw [hf] at h1; cases h1
    · intro hf _; rw [hf] at h1; cases h1
  · rw [if_neg h1]
    by_cases h2 : has_sub "close".toList (lower_list direction.toList) = true
    · rw [if_pos h2]
      refine ⟨Or.inr (Or.inr (Or.inr rfl)), fun hc => absurd hc h1, fun _ _ => rfl, ?_⟩
      intro _ hf; rw [hf] at h2; cases h2
    · rw [if_neg h2]
      have tot : (if start_position = 0 then "OPEN"
          else if |start_position + size| < |start_position| then "REDUCE"
          else if |start_position + size| > |start_position| then "INCREASE"
          else "CLOSE") = "OPEN" ∨
          (if start_position = 0 then "OPEN"
          else if |start_position + size| < |start_position| then "REDUCE"
          else if |start_position + size| > |start_position| then "INCREASE"
          else "CLOSE") = "INCREASE" ∨
          (if start_position = 0 then "OPEN"
          else if |start_position + size| < |start_position| then "REDUCE"
          else if |start_position + size| > |start_position| then "INCREASE"
          else "CLOSE") = "REDUCE" ∨
          (if start_position = 0 then "OPEN"
          else if |start_position + size| < |start_position| then "REDUCE"
          else if |start_position + size| > |start_position| then "INCREASE"
          else "CLOSE") = "CLOSE" := by
        by_cases h0 : start_position = 0
        · rw [if_pos h0]; exact Or.inl rfl
        · rw [if_neg h0]
          by_cases hlt : |start_position + size| < |start_position|
          · rw [if_pos hlt]; exact Or.inr (Or.inr (Or.inl rfl))
          · rw [if_neg hlt]
            by_cases hgt : |start_position + size| > |start_position|
            · rw [if_pos hgt]; exact Or.inr (Or.inl rfl)
            · rw [if_neg hgt]; exact Or.inr (Or.inr (Or.inr rfl))
      refine ⟨tot, fun hc => absurd hc h1, fun _ hc => absurd hc h2, ?_⟩
      intro _ _
      refine ⟨?_, ?_, ?_, ?_⟩
      · intro h0; rw [if_pos h0]
      · intro h0 hlt; rw [if_neg h0, if_pos hlt]
      · intro h0 hgt
        have hnlt : ¬ |start_position + size| < |start_position| := not_lt_of_gt hgt
        rw [if_neg h0, if_neg hnlt, if_pos hgt]
      · intro h0 heq
        have hnlt : ¬ |start_position + size| < |start_position| := by
          rw [heq]; exact lt_irrefl _
        have hngt : ¬ |start_position + size| > |start_position| := by
          rw [heq]; exact lt_irrefl _
        rw [if_neg h0, if_neg hnlt, if_neg hngt]

/-- C1 witness: concrete classifications for an "Open" label, a "Close" label,
and a delta-inferred reduction. -/
theorem c1_witness :
    determine_trade_type "Open Long" 0 5 = "OPEN" ∧
    determine_trade_type "Close Short" 3 (-3) = "CLOSE" ∧
    determine_trade_type "Buy" 2 (-1) = "REDUCE" :=
  ⟨(c1_trade_type_deterministic_total "Open Long" 0 5).2.1 (by decide),
   (c1_trade_type_deterministic_total "Close Short" 3 (-3)).2.2.1 (by decide) (by decide),
   ((c1_trade_type_deterministic_total "Buy" 2 (-1)).2.2.2 (by decide) (by decide)).2.1
     (by norm_num) (by norm_num)⟩

/-- C2: for every position list and fill list on which `build_summary`
succeeds, `overall_pnl` is the sum of the positions' `unrealized_pnl` values
(a function of the positions only) and `daily_pnl` is the sum of the fills'
`closedPnl` values (a function of the fills only); empty lists give sum 0. -/
theorem c2_pnl_sums (w : String) (api : Option (String → Option String))
    (positions : List Position) (fills : List RawFill) (s : Summary)
    (h : build_summary w positions fills api = some s) :
    s.overall_pnl = (positions.map Position.unrealized_pnl).sum ∧
    s.daily_pnl = (fills.filterMap RawFill.closedPnl).sum := by
  obtain ⟨ho, hd, -, -, -, -⟩ := build_summary_fields w api positions fills s h
  exact ⟨ho.trans (calculate_overall_pnl_eq_sum positions),
         calculate_daily_pnl_eq_sum fills s.daily_pnl hd⟩

unseal Rat.add Rat.mul Rat.inv Rat.sub in
/-- C2 witness: two positions with unrealized P&L 3 and -1 give overall P&L 2;
two fills with closed P&L 2 and 5 give daily P&L 7. -/
theorem c2_witness :
    summary_c2.overall_pnl = ([pos_a, pos_b].map Position.unrealized_pnl).sum ∧
    summary_c2.daily_pnl = ([fill_t1, fill_t3].filterMap RawFill.closedPnl).sum :=
  c2_pnl_sums "w" none [pos_a, pos_b] [fill_t1, fill_t3] summary_c2 (by decide)

/-- C3: after `update_state m (some t)`, reading the state back — directly or
through a save to the state file followed by a fresh load from the same path —
yields exactly timestamp `t` and scan type `m`. -/
theorem c3_checkpoint_round_trip (t : Int) (m : String) (st : StateData) (now_ms : Int) :
    get_last_run_timestamp (update_state st m (some t) now_ms) = some t ∧
    get_last_scan_type (update_state st m (some t) now_ms) = some m ∧
    get_last_run_timestamp (load_state (save_state (update_state st m (some t) now_ms)))
      = some t ∧
    get_last_scan_type (load_state (save_state (update_state st m (some t) now_ms)))
      = some m :=
  ⟨rfl, rfl, rfl, rfl⟩

/-- C4 (code bug): on a run whose configuration validates, `run` raises an
uncaught `TypeError` at the startup call `send_startup_message(self.scan_type)`
(main.py line 149 passes one argument; recap_notifier.py line 216 declares
none), so the checkpoint save `update_state` is never executed — the event
trace contains no checkpoint event, contradicting the claim that it executes
exactly once.  When validation fails the run exits before any effect, as the
claim states. -/
theorem c4_checkpoint_save_unreachable :
    validate_config cfg_valid = true ∧
    run cfg_valid "24h" (some {}) (fun _ _ _ => some summary_small) (fun _ => true)
        true true true 1200 = .uncaught_type_error [] ∧
    (events_of (run cfg_valid "24h" (some {}) (fun _ _ _ => some summary_small) (fun _ => true)
        true true true 1200)).countP is_checkpoint_event = 0 ∧
    run { cfg_valid with telegram_bot_token := none } "24h" (some {})
        (fun _ _ _ => some summary_small) (fun _ => true) true true true 1200 = .config_exit :=
  ⟨by decide, by decide, by decide, by decide⟩

/-- C5 (code bug): an incremental run finding no stored timestamp switches to
the 24h scan (main.py lines 140-146) but then crashes with the same startup
`TypeError` before fetching any fills or writing any checkpoint, so no fresh
checkpoint is produced, contradicting the claim. -/
theorem c5_fallback_checkpoint_unreachable :
    get_last_run_timestamp ({} : StateData) = none ∧
    validate_config cfg_valid = true ∧
    run cfg_valid "incremental" (some {}) (fun _ _ _ => some summary_small) (fun _ => true)
        true true true 2000 = .uncaught_type_error [] ∧
    (events_of (run cfg_valid "incremental" (some {}) (fun _ _ _ => some summary_small)
        (fun _ => true) true true true 2000)).countP is_checkpoint_event = 0 :=
  ⟨by decide, by decide, by decide, by decide⟩

/-- C6 (code bug): on a run whose configuration validates, zero startup and
zero completion messages are delivered, because the startup call itself raises
`TypeError` (wrong argument count) before any message is sent and the run
never reaches the completion send — contradicting the claim of exactly one of
each. -/
theorem c6_startup_completion_not_sent :
    validate_config cfg_valid = true ∧
    run cfg_valid "24h" (some {}) (fun _ _ _ => none) (fun _ => true)
        true true true 3000 = .uncaught_type_error [] ∧
    (events_of (run cfg_valid "24h" (some {}) (fun _ _ _ => none) (fun _ => true)
        true true true 3000)).countP is_startup_event = 0 ∧
    (events_of (run cfg_valid "24h" (some {}) (fun _ _ _ => none) (fun _ => true)
        true true true 3000)).countP is_completion_event = 0 :=
  ⟨by decide, by decide, by decide, by decide⟩

/-- C7 counterexample: with bot filtering disabled (`FILTER_BOTS = false`) a
wallet whose trade count 600 exceeds the default bot threshold 500 is NOT
added to the bot bucket and NOT counted as filtered — it is sent as an
individual recap, refuting the claim as stated (the claim omits the
`FILTER_BOTS` guard of main.py line 173). -/
theorem c7_counterexample_filter_disabled :
    summary_bot.trade_count > 500 ∧
    (loop_step false 500 1 (fun _ => true) "0xbot" {} (some summary_bot)).1.bot_traders = [] ∧
    (loop_step false 500 1 (fun _ => true) "0xbot" {} (some summary_bot)).1.filtered_wallets
        = 0 ∧
    (loop_step false 500 1 (fun _ => true) "0xbot" {} (some summary_bot)).2
        = [.recap_sent "0xbot"] :=
  ⟨by decide, by decide, by decide, by decide⟩

/-- C7 (amended): when bot filtering is enabled, a built summary with trade
count above the bot threshold is appended to the bot bucket, counted as
filtered, and not sent individually; otherwise one with trade count below the
activity floor is dropped (counted as filtered, no message, bucket unchanged);
otherwise an individual recap send is attempted.  When bot filtering is
disabled, every built summary goes straight to the individual recap send. -/
theorem c7_classification_amended (filter_bots : Bool) (maxT minT : Nat)
    (send_recap_ok : Summary → Bool) (w : String) (st : RunStats) (s : Summary) :
    (filter_bots = true → s.trade_count > maxT →
      (loop_step filter_bots maxT minT send_recap_ok w st (some s)).1.bot_traders
          = st.bot_traders ++ [s] ∧
      (loop_step filter_bots maxT minT send_recap_ok w st (some s)).1.filtered_wallets
          = st.filtered_wallets + 1 ∧
      (loop_step filter_bots maxT minT send_recap_ok w st (some s)).2
          = [.bot_collected w]) ∧
    (filter_bots = true → ¬ s.trade_count > maxT → s.trade_count < minT →
      (loop_step filter_bots maxT minT send_recap_ok w st (some s)).1.filtered_wallets
          = st.filtered_wallets + 1 ∧
      (loop_step filter_bots maxT minT send_recap_ok w st (some s)).1.bot_traders
          = st.bot_traders ∧
      (loop_step filter_bots maxT minT send_recap_ok w st (some s)).2
          = [.filtered_inactive w]) ∧
    (filter_bots = true → ¬ s.trade_count > maxT → ¬ s.trade_count < minT →
      (loop_step filter_bots maxT minT send_recap_ok w st (some s)).2
          = [if send_recap_ok s then Event.recap_sent w else Event.recap_send_failed w]) ∧
    (filter_bots = false →
      (loop_step filter_bots maxT minT send_recap_ok w st (some s)).2
          = [if send_recap_ok s then Event.recap_sent w else Event.recap_send_failed w]) := by
  unfold loop_step
  refine ⟨?_, ?_, ?_, ?_⟩
  · intro hf hgt
    subst hf
    simp only [if_true]
    rw [if_pos hgt]
    exact ⟨rfl, rfl, rfl⟩
  · intro hf hngt hlt
    subst hf
    simp only [if_true]
    rw [if_neg hngt, if_pos hlt]
    exact ⟨rfl, rfl, rfl⟩
  · intro hf hngt hnlt
    subst hf
    simp only [if_true]
    rw [if_neg hngt, if_neg hnlt]
    by_cases hs : send_recap_ok s = true
    · rw [if_pos hs, if_pos hs]
    · rw [if_neg hs, if_neg hs]
  · intro hf
    subst hf
    simp only [Bool.false_eq_true, if_false]
    by_cases hs : send_recap_ok s = true
    · rw [if_pos hs, if_pos hs]
    · rw [if_neg hs, if_neg hs]

/-- C7 witness: with filtering enabled and the default thresholds, a
600-trade wallet is routed to the bot bucket and counted as filtered. -/
theorem c7_witness :
    (loop_step true 500 1 (fun _ => true) "0xbot" ({} : RunStats)
        (some summary_bot)).1.bot_traders
        = ({} : RunStats).bot_traders ++ [summary_bot] ∧
    (loop_step true 500 1 (fun _ => true) "0xbot" ({} : RunStats)
        (some summary_bot)).1.filtered_wallets
        = ({} : RunStats).filtered_wallets + 1 ∧
    (loop_step true 500 1 (fun _ => true) "0xbot" ({} : RunStats) (some summary_bot)).2
        = [.bot_collected "0xbot"] :=
  (c7_classification_amended true 500 1 (fun _ => true) "0xbot" {} summary_bot).1 rfl
    (by decide)

/-- C8: every position surviving `parse_positions` has size strictly greater
than zero — zero-size raw entries are discarded during normalization. -/
theorem c8_positive_size_invariant (user_state : Option (List RawPositionData))
    (wallet_address : String) (p : Position)
    (hp : p ∈ parse_positions user_state wallet_address) : 0 < p.size := by
  cases user_state with
  | none => simp [parse_positions] at hp
  | some entries =>
    simp only [parse_positions, List.mem_filterMap] at hp
    obtain ⟨raw, -, hraw⟩ := hp
    obtain ⟨szi, -, hne, hsize⟩ := parse_position_size wallet_address raw p hraw
    rw [hsize]
    exact abs_pos.mpr hne

unseal Rat.add Rat.mul Rat.inv Rat.sub in
/-- C8 witness: of three raw entries with one zero `szi`, exactly two survive,
and a summary built from them reports position count 2. -/
theorem c8_witness :
    0 < pos_c8.size ∧
    (parse_positions (some raw_entries_c8) "w").length = 2 ∧
    (build_summary "w" (parse_positions (some raw_entries_c8) "w") [] none).map
        Summary.position_count = some 2 :=
  ⟨c8_positive_size_invariant (some raw_entries_c8) "w" pos_c8 (by decide),
   by decide, by decide⟩

/-- C9: in every successfully built summary the trades list is ordered by
non-increasing timestamp: each adjacent pair satisfies
`t(i+1) ≤ t(i)` (most recent first). -/
theorem c9_trades_sorted_desc (w : String) (api : Option (String → Option String))
    (positions : List Position) (fills : List RawFill) (s : Summary)
    (h : build_summary w positions fills api = some s)
    (i : Nat) (hi : i + 1 < s.trades.length) :
    (s.trades.get ⟨i + 1, hi⟩).timestamp ≤
      (s.trades.get ⟨i, Nat.lt_of_succ_lt hi⟩).timestamp := by
  obtain ⟨-, -, -, ht, -, -⟩ := build_summary_fields w api positions fills s h
  have hs : s.trades.Sorted ts_desc := ht ▸ format_trades_sorted api fills
  exact hs.rel_get_of_lt
    (show (⟨i, Nat.lt_of_succ_lt hi⟩ : Fin s.trades.length) < ⟨i + 1, hi⟩ from
      Nat.lt_succ_self i)

unseal Rat.add Rat.mul Rat.inv Rat.sub in
/-- C9 witness: fills with timestamps 1 and 3 produce a trades list whose
first entry has the larger timestamp. -/
theorem c9_witness :
    (summary_c2.trades.get ⟨1, by decide⟩).timestamp ≤
      (summary_c2.trades.get ⟨0, by decide⟩).timestamp :=
  c9_trades_sorted_desc "w" none [pos_a, pos_b] [fill_t1, fill_t3] summary_c2 (by decide)
    0 (by decide)

unseal Rat.add Rat.mul Rat.inv Rat.sub in
/-- C10: every successfully built summary has `trade_count` equal to the raw
fill count and `has_activity` equal to `fill count > 0`, while the formatted
trades list never exceeds `trade_count`; and there is an input (a fill whose
price fails float conversion) on which the trades list is strictly shorter
than `trade_count` and `has_activity` is true with an empty trades list. -/
theorem c10_trade_count_vs_trades :
    (∀ (w : String) (api : Option (String → Option String)) (positions : List Position)
       (fills : List RawFill) (s : Summary),
      build_summary w positions fills api = some s →
        s.trade_count = fills.length ∧
        s.has_activity = decide (0 < fills.length) ∧
        s.trades.length ≤ s.trade_count) ∧
    (∃ (w : String) (api : Option (String → Option String)) (positions : List Position)
       (fills : List RawFill) (s : Summary),
      build_summary w positions fills api = some s ∧
        s.trades.length < s.trade_count ∧ s.has_activity = true ∧ s.trades = []) := by
  constructor
  · intro w api positions fills s h
    obtain ⟨-, -, hc, ht, ha, -⟩ := build_summary_fields w api positions fills s h
    refine ⟨hc, ha, ?_⟩
    rw [ht, hc]
    unfold format_trades
    calc ((fills.filterMap (format_trade api)).insertionSort ts_desc).length
        = (fills.filterMap (format_trade api)).length := List.length_insertionSort _ _
      _ ≤ fills.length := List.length_filterMap_le _ _
  · refine ⟨"w", none, [], [fill_bad_px], summary_c10, ?_, ?_, ?_, ?_⟩
    · decide
    · decide
    · decide
    · decide

unseal Rat.add Rat.mul Rat.inv Rat.sub in
/-- C10 witness: a single fill with an unparsable price gives trade count 1,
activity true, and an empty trades list. -/
theorem c10_witness :
    summary_c10.trade_count = [fill_bad_px].length ∧
    summary_c10.has_activity = decide (0 < [fill_bad_px].length) ∧
    summary_c10.trades.length ≤ summary_c10.trade_count :=
  c10_trade_count_vs_trades.1 "w" none [] [fill_bad_px] summary_c10 (by decide)

end HypeTg
